import Mathlib

/-!
Verification development for the sample-metadata ingestion pipeline of
`DB/inserts/file_parsers/samples_parser.py` (repository `gp201/muninn`).

The pipeline is embedded shallowly: rows are association lists from literal
header strings to raw cell text, the per-row try/except body becomes an
`Except`-valued computation, and the run is a left fold over rows threading a
`RunState` (geo-location cache, call logs for the two storage collaborators,
and the two counters of `debug_info`).  The storage collaborators
(`find_or_insert_geo_location`, `find_or_insert_sample`) are external per the
spec; they are passed in as pure oracles `g : GeoLocation → Nat` and
`s : Sample → Nat × Bool`, and every call made to them is logged in the state
so that call counts can be reasoned about.
-/

deriving instance DecidableEq for Except

/-- Errors raised during a run.  In the source both the header error and the
per-row errors are Python `ValueError`s; the row loop's `except ValueError`
catches every per-row error, so `RowError` covers both the defensive
missing-column case of `get_value` and value-conversion failures. -/
inductive RowError
| schemaError
| validationError
deriving DecidableEq

/-- Modelled from the spec: a parsed timestamp as produced by
`dateutil.parser.isoparse` (external library).  Only what the claims need is
modelled: the textual base of the timestamp and whether an explicit timezone
was attached (`none` = naive datetime, `some "UTC"` = explicit Z/UTC). -/
structure Timestamp where
  base : String
  tz : Option String
deriving DecidableEq

/-- Modelled from the spec: the `GeoLocation` model of `DB.models` (§3 of the
spec), with `full_text` and the decomposed nullable triple. -/
structure GeoLocation where
  full_text : String
  country_name : Option String
  region_name : Option String
  locality_name : Option String
deriving DecidableEq

/-- Modelled from the spec: the `Sample` model of `DB.models` (§3 of the
spec).  Fields are `Option`-typed because `get_value` returns a null value for
empty nullable cells; the float value of `avg_spot_length` is modelled by its
validated literal.  Field names and order follow the keyword arguments of the
`Sample(...)` construction in `parse_and_insert`. -/
structure Sample where
  geo_location_id : Option Nat
  accession : Option String
  assay_type : Option String
  avg_spot_length : Option String
  bases : Option Int
  bio_project : Option String
  bio_sample : Option String
  bio_sample_model : Option String
  bio_sample_accession : Option String
  bytes : Option Int
  center_name : Option String
  collection_start_date : Option Timestamp
  collection_end_date : Option Timestamp
  consent_level : Option String
  datastore_filetype : Option String
  datastore_provider : Option String
  datastore_region : Option String
  experiment : Option String
  host : Option String
  instrument : Option String
  isolate : Option String
  library_name : Option String
  library_layout : Option String
  library_selection : Option String
  library_source : Option String
  organism : Option String
  platform : Option String
  version : Option String
  sample_name : Option String
  sra_study : Option String
  serotype : Option String
  isolation_source : Option String
  is_retracted : Option Bool
  retraction_detected_date : Option Timestamp
  release_date : Option Timestamp
  creation_date : Option Timestamp
deriving DecidableEq

/-- A raw row as produced by `csv.DictReader`: literal header string to raw
cell text. -/
abbrev Row := List (String × String)

/-- Lookup of a literal column in a raw row (dict access on the reader's
row). -/
def rowLookup : Row → String → Option String
  | [], _ => none
  | (k, v) :: rest, key => if k = key then some v else rowLookup rest key

/-- Modelled from the spec: `get_value` from `utils.csv_helpers` (§4.1).
Absent column → schema error (defensive); empty raw value → null when
`allowNone`, else validation error; otherwise the transform is applied and a
conversion failure is a validation error. -/
def get_value {α : Type} (row : Row) (col : String) (allowNone : Bool)
    (transform : String → Option α) : Except RowError (Option α) :=
  match rowLookup row col with
  | none => .error .schemaError
  | some raw =>
    if raw = "" then
      if allowNone then .ok none else .error .validationError
    else
      match transform raw with
      | some v => .ok (some v)
      | none => .error .validationError

/-- Splits a character list on a separator character (used by the modelled
domain parsers; written structurally so the kernel can evaluate it). -/
def splitChars (sep : Char) : List Char → List (List Char)
  | [] => [[]]
  | c :: cs =>
    match splitChars sep cs with
    | [] => [[c]]
    | h :: t => if c = sep then [] :: h :: t else (c :: h) :: t

/-- The decomposed geographic identity: `(country, region, locality)`, each
independently nullable. -/
abbrev Triple := Option String × Option String × Option String

/-- Modelled from the spec: `parse_geo_loc` from `utils.geodata` (§4.2).
Colon-separated hierarchy, trailing segments optional, unparsable structure
(too many segments) is a validation failure signalled by `none`. -/
def parse_geo_loc (s : String) : Option Triple :=
  match (splitChars ':' s.data).map (fun cs => String.mk cs) with
  | [c] => some (some c, none, none)
  | [c, r] => some (some c, some r, none)
  | [c, r, l] => some (some c, some r, some l)
  | _ => none

/-- Characters admissible in a naive (timezone-free) ISO-8601-like
timestamp. -/
def naiveChar (c : Char) : Bool :=
  c.isDigit || c = '-' || c = ':' || c = 'T' || c = '.' || c = ' '

/-- A nonempty all-naive character list: a naive timestamp body. -/
def validNaiveChars (cs : List Char) : Bool :=
  !cs.isEmpty && cs.all naiveChar

/-- A naive timestamp string (no explicit timezone designator). -/
def validNaive (s : String) : Bool := validNaiveChars s.data

/-- Modelled from the spec: `dateutil.parser.isoparse` (external).  A trailing
`Z` yields an explicit-UTC timestamp; otherwise a naive body parses to a
timestamp with no timezone attached (dateutil does not reject naive inputs and
does not assume UTC for them); anything else raises `ValueError` (here:
`none`). -/
def isoparse (s : String) : Option Timestamp :=
  match s.data.reverse with
  | [] => if validNaiveChars s.data then some { base := s, tz := none } else none
  | c :: rest =>
    if c = 'Z' then
      if validNaiveChars rest.reverse then
        some { base := String.mk rest.reverse, tz := some "UTC" }
      else none
    else if validNaiveChars s.data then some { base := s, tz := none } else none

/-- The retraction-detection-date transform of `parse_and_insert` (source line
76): a zone marker is appended before parsing, so a naive input is read as
UTC. -/
def parseRetractionDate (s : String) : Option Timestamp := isoparse (s ++ "Z")

/-- Modelled from the spec: `parse_collection_start_and_end` from
`utils.dates_and_times` (§4.2).  A single date yields an equal start/end pair;
a `/`-separated range yields both endpoints; anything unparsable is a
validation failure. -/
def parse_collection_start_and_end (s : String) : Option (Timestamp × Timestamp) :=
  match (splitChars '/' s.data).map (fun cs => String.mk cs) with
  | [d] =>
    match isoparse d with
    | some t => some (t, t)
    | none => none
  | [d1, d2] =>
    match isoparse d1, isoparse d2 with
    | some t1, some t2 => some (t1, t2)
    | _, _ => none
  | _ => none

/-- Lower-cases an ASCII letter (kernel-evaluable). -/
def lowerChar (c : Char) : Char :=
  if 65 ≤ c.toNat && c.toNat ≤ 90 then Char.ofNat (c.toNat + 32) else c

/-- Modelled from the spec: `bool_from_str` from `utils.csv_helpers` (§4.2):
case-insensitive `true`/`false`, anything else is a validation failure. -/
def bool_from_str (s : String) : Option Bool :=
  let l := String.mk (s.data.map lowerChar)
  if l = "true" then some true
  else if l = "false" then some false
  else none

/-- Folds decimal digits into a natural number. -/
def natOfDigits (cs : List Char) : Nat :=
  cs.foldl (fun acc c => acc * 10 + (c.toNat - 48)) 0

/-- Modelled from the spec: the `int` conversion used as `transform` for
`bases` and `bytes` — optional sign followed by decimal digits, anything else
raises `ValueError` (here: `none`). -/
def parseIntStr (s : String) : Option Int :=
  match s.data with
  | '-' :: rest =>
    if !rest.isEmpty && rest.all Char.isDigit then some (-(Int.ofNat (natOfDigits rest)))
    else none
  | cs =>
    if !cs.isEmpty && cs.all Char.isDigit then some (Int.ofNat (natOfDigits cs))
    else none

/-- Modelled from the spec: the `float` conversion used as `transform` for
`avg_spot_length` — optional sign, digits with at most one decimal point; the
float value is modelled by its validated literal. -/
def parseFloatLit (s : String) : Option String :=
  let cs := match s.data with
    | '-' :: rest => rest
    | cs => cs
  if !cs.isEmpty && cs.all (fun c => c.isDigit || c = '.')
      && cs.count '.' ≤ 1 && cs.any Char.isDigit then some s
  else none

/-- ColNameMapping: logical field `accession` ↦ literal header. -/
def ColNameMapping.accession : String := "Run"

def ColNameMapping.assay_type : String := "Assay Type"

def ColNameMapping.avg_spot_length : String := "AvgSpotLen"

def ColNameMapping.bases : String := "Bases"

def ColNameMapping.bio_project : String := "BioProject"

def ColNameMapping.bio_sample : String := "BioSample"

def ColNameMapping.bio_sample_model : String := "BioSampleModel"

def ColNameMapping.bytes_ : String := "Bytes"

def ColNameMapping.center_name : String := "Center Name"

def ColNameMapping.collection_date : String := "Collection_Date"

def ColNameMapping.consent_level : String := "Consent"

def ColNameMapping.datastore_filetype : String := "DATASTORE filetype"

def ColNameMapping.datastore_provider : String := "DATASTORE provider"

def ColNameMapping.datastore_region : String := "DATASTORE region"

def ColNameMapping.experiment : String := "Experiment"

def ColNameMapping.geo_loc_name_country : String := "geo_loc_name_country"

def ColNameMapping.geo_loc_name_country_continent : String := "geo_loc_name_country_continent"

def ColNameMapping.geo_loc_name : String := "geo_loc_name"

def ColNameMapping.host : String := "Host"

def ColNameMapping.instrument : String := "Instrument"

def ColNameMapping.isolate : String := "isolate"

def ColNameMapping.library_name : String := "Library Name"

def ColNameMapping.library_layout : String := "LibraryLayout"

def ColNameMapping.library_selection : String := "LibrarySelection"

def ColNameMapping.library_source : String := "LibrarySource"

def ColNameMapping.organism : String := "Organism"

def ColNameMapping.platform : String := "Platform"

def ColNameMapping.release_date : String := "ReleaseDate"

def ColNameMapping.creation_date : String := "create_date"

def ColNameMapping.version : String := "version"

def ColNameMapping.sample_name : String := "Sample Name"

def ColNameMapping.sra_study : String := "SRA Study"

def ColNameMapping.serotype : String := "serotype"

def ColNameMapping.isolation_source : String := "isolation_source"

def ColNameMapping.bio_sample_accession : String := "BioSample Accession"

def ColNameMapping.is_retracted : String := "is_retracted"

def ColNameMapping.retraction_detected_date : String := "retraction_detection_date_utc"

/-- The required-column set of `SamplesParser.get_required_column_set`
(source lines 157–195), as the list of literal header strings; the source
builds a Python set, modelled here as a duplicate-free list. -/
def get_required_column_set : List String := [
  ColNameMapping.accession,
  ColNameMapping.assay_type,
  ColNameMapping.avg_spot_length,
  ColNameMapping.bases,
  ColNameMapping.bio_project,
  ColNameMapping.bio_sample,
  ColNameMapping.bio_sample_model,
  ColNameMapping.bytes_,
  ColNameMapping.center_name,
  ColNameMapping.collection_date,
  ColNameMapping.consent_level,
  ColNameMapping.datastore_filetype,
  ColNameMapping.datastore_provider,
  ColNameMapping.datastore_region,
  ColNameMapping.experiment,
  ColNameMapping.geo_loc_name,
  ColNameMapping.host,
  ColNameMapping.instrument,
  ColNameMapping.isolate,
  ColNameMapping.library_name,
  ColNameMapping.library_layout,
  ColNameMapping.library_selection,
  ColNameMapping.library_source,
  ColNameMapping.organism,
  ColNameMapping.platform,
  ColNameMapping.release_date,
  ColNameMapping.creation_date,
  ColNameMapping.version,
  ColNameMapping.sample_name,
  ColNameMapping.sra_study,
  ColNameMapping.serotype,
  ColNameMapping.isolation_source,
  ColNameMapping.bio_sample_accession,
  ColNameMapping.is_retracted,
  ColNameMapping.retraction_detected_date]

/-- The set difference `required_columns - set(fieldnames)` reported by
`_verify_header` (source line 155). -/
def missingColumns (fieldnames : List String) : List String :=
  get_required_column_set.filter (fun c => decide (c ∉ fieldnames))

/-- `SamplesParser._verify_header` (source lines 151–155): raises (returns
`.error`) with exactly the missing columns unless the header is a superset of
the required set. -/
def verify_header (fieldnames : List String) : Except (List String) Unit :=
  if missingColumns fieldnames = [] then .ok ()
  else .error (missingColumns fieldnames)

/-- The mutable per-run state of `parse_and_insert`: the run-scoped cache
`cache_geo_loc_ids` (triple → id), the ordered logs of the calls made to the
two storage collaborators, and the two counters of `debug_info`. -/
structure RunState where
  cache : List (Triple × Nat)
  geo_calls : List GeoLocation
  sample_calls : List Sample
  skipped_malformed : Nat
  count_preexisting : Nat

/-- The state at the start of a run: empty cache, no storage calls, zero
counters. -/
def initState : RunState :=
  { cache := [], geo_calls := [], sample_calls := [], skipped_malformed := 0,
    count_preexisting := 0 }

/-- Association lookup in the run-scoped cache, keyed by the decomposed
triple. -/
def lookupTriple : List (Triple × Nat) → Triple → Option Nat
  | [], _ => none
  | (k, v) :: rest, t => if k = t then some v else lookupTriple rest t

/-- The pure part of the geo-location step of `parse_and_insert` (source
lines 38–45): extract the geo column (nullable) and decompose it; `.ok none`
when the cell is absent, the decomposed triple with its full text
otherwise. -/
def rowGeoParse (row : Row) : Except RowError (Option (String × Triple)) :=
  match get_value row ColNameMapping.geo_loc_name true (fun x => some x) with
  | .error e => .error e
  | .ok none => .ok none
  | .ok (some ft) =>
    match parse_geo_loc ft with
    | none => .error .validationError
    | some t => .ok (some (ft, t))

/-- The geo-location resolution step of `parse_and_insert` (source lines
38–56): absent cell → null id and untouched state; cache hit → cached id, no
storage call; cache miss → one `find_or_insert_geo_location` call (logged),
the result cached under the triple. -/
def resolveGeo (g : GeoLocation → Nat) (cache : List (Triple × Nat))
    (calls : List GeoLocation) (row : Row) :
    Except RowError (Option Nat × List (Triple × Nat) × List GeoLocation) :=
  match rowGeoParse row with
  | .error e => .error e
  | .ok none => .ok (none, cache, calls)
  | .ok (some (ft, t)) =>
    match lookupTriple cache t with
    | some id => .ok (some id, cache, calls)
    | none =>
      let loc : GeoLocation :=
        { full_text := ft, country_name := t.1, region_name := t.2.1,
          locality_name := t.2.2 }
      .ok (some (g loc), (t, g loc) :: cache, calls ++ [loc])

/-- The collection-date step of `parse_and_insert` (source lines 58–66): the
cell is required; the literal sentinel `"missing"` yields a null start/end
pair; otherwise the range parser must succeed. -/
def collectionDates (row : Row) :
    Except RowError (Option Timestamp × Option Timestamp) :=
  match get_value row ColNameMapping.collection_date false (fun x => some x) with
  | .error e => .error e
  | .ok none => .error .validationError
  | .ok (some cd) =>
    if cd = "missing" then .ok (none, none)
    else
      match parse_collection_start_and_end cd with
      | some p => .ok (some p.1, some p.2)
      | none => .error .validationError

/-- The retraction-date step of `parse_and_insert` (source lines 68–76): the
cell is nullable; when present, a zone marker is appended and the result must
parse. -/
def retractionDate (row : Row) : Except RowError (Option Timestamp) :=
  match get_value row ColNameMapping.retraction_detected_date true (fun x => some x) with
  | .error e => .error e
  | .ok none => .ok none
  | .ok (some s) =>
    match parseRetractionDate s with
    | some t => .ok (some t)
    | none => .error .validationError

/-- Row assembly minus the geo-location id (source lines 58–140): collection
date, retraction date, then every `get_value` keyword argument of the
`Sample(...)` construction in source order.  The geo id is resolved before
this step and only stored into the record, so it is taken as the function
argument of the result. -/
def assembleCore (row : Row) : Except RowError (Option Nat → Sample) := do
  let cds ← collectionDates row
  let retraction_detected_date ← retractionDate row
  let accession ← get_value row ColNameMapping.accession false (fun x => some x)
  let assay_type ← get_value row ColNameMapping.assay_type false (fun x => some x)
  let avg_spot_length ← get_value row ColNameMapping.avg_spot_length true parseFloatLit
  let bases ← get_value row ColNameMapping.bases false parseIntStr
  let bio_project ← get_value row ColNameMapping.bio_project false (fun x => some x)
  let bio_sample ← get_value row ColNameMapping.bio_sample true (fun x => some x)
  let bio_sample_model ← get_value row ColNameMapping.bio_sample_model false (fun x => some x)
  let bio_sample_accession ← get_value row ColNameMapping.bio_sample_accession true (fun x => some x)
  let bytes ← get_value row ColNameMapping.bytes_ false parseIntStr
  let center_name ← get_value row ColNameMapping.center_name false (fun x => some x)
  let consent_level ← get_value row ColNameMapping.consent_level false (fun x => some x)
  let datastore_filetype ← get_value row ColNameMapping.datastore_filetype false (fun x => some x)
  let datastore_provider ← get_value row ColNameMapping.datastore_provider false (fun x => some x)
  let datastore_region ← get_value row ColNameMapping.datastore_region false (fun x => some x)
  let experiment ← get_value row ColNameMapping.experiment false (fun x => some x)
  let host ← get_value row ColNameMapping.host true (fun x => some x)
  let instrument ← get_value row ColNameMapping.instrument false (fun x => some x)
  let isolate ← get_value row ColNameMapping.isolate true (fun x => some x)
  let library_name ← get_value row ColNameMapping.library_name false (fun x => some x)
  let library_layout ← get_value row ColNameMapping.library_layout false (fun x => some x)
  let library_selection ← get_value row ColNameMapping.library_selection false (fun x => some x)
  let library_source ← get_value row ColNameMapping.library_source false (fun x => some x)
  let organism ← get_value row ColNameMapping.organism false (fun x => some x)
  let platform ← get_value row ColNameMapping.platform false (fun x => some x)
  let version ← get_value row ColNameMapping.version false (fun x => some x)
  let sample_name ← get_value row ColNameMapping.sample_name false (fun x => some x)
  let sra_study ← get_value row ColNameMapping.sra_study false (fun x => some x)
  let serotype ← get_value row ColNameMapping.serotype true (fun x => some x)
  let isolation_source ← get_value row ColNameMapping.isolation_source true (fun x => some x)
  let is_retracted ← get_value row ColNameMapping.is_retracted false bool_from_str
  let release_date ← get_value row ColNameMapping.release_date false isoparse
  let creation_date ← get_value row ColNameMapping.creation_date false isoparse
  pure (fun geo_location_id =>
    { geo_location_id := geo_location_id,
      accession := accession,
      assay_type := assay_type,
      avg_spot_length := avg_spot_length,
      bases := bases,
      bio_project := bio_project,
      bio_sample := bio_sample,
      bio_sample_model := bio_sample_model,
      bio_sample_accession := bio_sample_accession,
      bytes := bytes,
      center_name := center_name,
      collection_start_date := cds.1,
      collection_end_date := cds.2,
      consent_level := consent_level,
      datastore_filetype := datastore_filetype,
      datastore_provider := datastore_provider,
      datastore_region := datastore_region,
      experiment := experiment,
      host := host,
      instrument := instrument,
      isolate := isolate,
      library_name := library_name,
      library_layout := library_layout,
      library_selection := library_selection,
      library_source := library_source,
      organism := organism,
      platform := platform,
      version := version,
      sample_name := sample_name,
      sra_study := sra_study,
      serotype := serotype,
      isolation_source := isolation_source,
      is_retracted := is_retracted,
      retraction_detected_date := retraction_detected_date,
      release_date := release_date,
      creation_date := creation_date })

/-- One iteration of the row loop of `parse_and_insert` (source lines 35–147):
the try-body is the geo step followed by assembly and the sample
find-or-insert (logged; `preexisting` increments its counter), and any
`ValueError` (`RowError`) is caught at row granularity, incrementing
`skipped_malformed` while keeping the geo-side state changes already made. -/
def processRow (g : GeoLocation → Nat) (s : Sample → Nat × Bool)
    (st : RunState) (row : Row) : RunState :=
  match resolveGeo g st.cache st.geo_calls row with
  | .error _ => { st with skipped_malformed := st.skipped_malformed + 1 }
  | .ok (gid, cache2, calls2) =>
    match assembleCore row with
    | .error _ =>
      { st with
          cache := cache2,
          geo_calls := calls2,
          skipped_malformed := st.skipped_malformed + 1 }
    | .ok mk =>
      let sample := mk gid
      let pre := (s sample).2
      { st with
          cache := cache2,
          geo_calls := calls2,
          sample_calls := st.sample_calls ++ [sample],
          count_preexisting := st.count_preexisting + (if pre then 1 else 0) }

/-- The state after processing a list of rows from the initial state. -/
def stateAfter (g : GeoLocation → Nat) (s : Sample → Nat × Bool)
    (rows : List Row) : RunState :=
  rows.foldl (processRow g s) initState

/-- The body of `SamplesParser.parse_and_insert` after the file has been read
(source lines 23–149): verify the header once, then fold the row loop from a
fresh per-run state. -/
def parseAndInsertRows (g : GeoLocation → Nat) (s : Sample → Nat × Bool)
    (fieldnames : List String) (rows : List Row) :
    Except (List String) RunState :=
  match verify_header fieldnames with
  | .error missing => .error missing
  | .ok _ => .ok (rows.foldl (processRow g s) initState)

/-- `SamplesParser` (source lines 17–21): a filename and a delimiter. -/
structure SamplesParser where
  filename : String
  delimiter : String

/-- Modelled from the spec: the file-reading side of `parse_and_insert`
(`open` plus `csv.DictReader`, a thin I/O wrapper per §2): the header line and
each body line are split on the configured delimiter and zipped into raw
rows. -/
def SamplesParser.parse_and_insert (p : SamplesParser) (g : GeoLocation → Nat)
    (s : Sample → Nat × Bool) (headerLine : String) (bodyLines : List String) :
    Except (List String) RunState :=
  let fieldnames := headerLine.splitOn p.delimiter
  parseAndInsertRows g s fieldnames
    (bodyLines.map (fun l => fieldnames.zip (l.splitOn p.delimiter)))

/-- `SamplesTsvParser.__init__` (source lines 238–241): the base parser with a
tab delimiter. -/
def SamplesTsvParser.mk (filename : String) : SamplesParser :=
  { filename := filename, delimiter := "\t" }

/-- `SamplesTsvParser.parse_and_insert` (source lines 243–244): delegates to
the base class unchanged. -/
def SamplesTsvParser.parse_and_insert (filename : String)
    (g : GeoLocation → Nat) (s : Sample → Nat × Bool) (headerLine : String)
    (bodyLines : List String) : Except (List String) RunState :=
  (SamplesTsvParser.mk filename).parse_and_insert g s headerLine bodyLines

/-- `SamplesCsvParser.__init__` (source lines 247–250): the base parser with a
comma delimiter. -/
def SamplesCsvParser.mk (filename : String) : SamplesParser :=
  { filename := filename, delimiter := "," }

/-- `SamplesCsvParser.parse_and_insert` (source lines 252–253): delegates to
the base class unchanged. -/
def SamplesCsvParser.parse_and_insert (filename : String)
    (g : GeoLocation → Nat) (s : Sample → Nat × Bool) (headerLine : String)
    (bodyLines : List String) : Except (List String) RunState :=
  (SamplesCsvParser.mk filename).parse_and_insert g s headerLine bodyLines

/-- The decomposed-triple identity of a stored geo-location value. -/
def tripleOf (loc : GeoLocation) : Triple :=
  (loc.country_name, loc.region_name, loc.locality_name)

/-- The number of `find_or_insert_geo_location` calls made for a given triple
(read off the call log). -/
def countTriple (calls : List GeoLocation) (t : Triple) : Nat :=
  calls.countP (fun loc => decide (tripleOf loc = t))

/-- The triple a row's geo cell decomposes to, when the cell is present and
decomposable. -/
def rowTriple (row : Row) : Option Triple :=
  match rowGeoParse row with
  | .ok (some (_, t)) => some t
  | _ => none

/-- The geo-location id the resolver assigns to a row at a given state
(`none` when the geo step itself fails). -/
def rowGeoId (g : GeoLocation → Nat) (st : RunState) (row : Row) :
    Option (Option Nat) :=
  match resolveGeo g st.cache st.geo_calls row with
  | .ok (gid, _, _) => some gid
  | .error _ => none

/-- The literal columns read by the row-assembly code path (the geo step, the
collection-date step, the retraction step, and every `get_value` in the
`Sample(...)` construction). -/
def assemblyReadColumns : List String := [
  ColNameMapping.geo_loc_name,
  ColNameMapping.collection_date,
  ColNameMapping.retraction_detected_date,
  ColNameMapping.accession,
  ColNameMapping.assay_type,
  ColNameMapping.avg_spot_length,
  ColNameMapping.bases,
  ColNameMapping.bio_project,
  ColNameMapping.bio_sample,
  ColNameMapping.bio_sample_model,
  ColNameMapping.bio_sample_accession,
  ColNameMapping.bytes_,
  ColNameMapping.center_name,
  ColNameMapping.consent_level,
  ColNameMapping.datastore_filetype,
  ColNameMapping.datastore_provider,
  ColNameMapping.datastore_region,
  ColNameMapping.experiment,
  ColNameMapping.host,
  ColNameMapping.instrument,
  ColNameMapping.isolate,
  ColNameMapping.library_name,
  ColNameMapping.library_layout,
  ColNameMapping.library_selection,
  ColNameMapping.library_source,
  ColNameMapping.organism,
  ColNameMapping.platform,
  ColNameMapping.version,
  ColNameMapping.sample_name,
  ColNameMapping.sra_study,
  ColNameMapping.serotype,
  ColNameMapping.isolation_source,
  ColNameMapping.is_retracted,
  ColNameMapping.release_date,
  ColNameMapping.creation_date]

/-- A concrete geo-location storage oracle for witnesses: every location gets
identifier 42. -/
def gW : GeoLocation → Nat := fun _ => 42

/-- A concrete sample storage oracle for witnesses: identifier 7, never
preexisting. -/
def sW : Sample → Nat × Bool := fun _ => (7, false)

/-- A concrete row whose geo cell decomposes to the Davis triple and whose
other cells are left out (its assembly fails, its geo step succeeds). -/
def rowGeoW : Row := [(ColNameMapping.geo_loc_name, "USA:California:Davis")]

/-- The Davis triple. -/
def tripleW : Triple := (some "USA", some "California", some "Davis")

lemma processRow_resolve_err (g : GeoLocation → Nat) (s : Sample → Nat × Bool)
    (st : RunState) (row : Row) (e : RowError)
    (h : resolveGeo g st.cache st.geo_calls row = .error e) :
    processRow g s st row = { st with skipped_malformed := st.skipped_malformed + 1 } := by
  unfold processRow
  rw [h]

lemma processRow_assemble_err (g : GeoLocation → Nat) (s : Sample → Nat × Bool)
    (st : RunState) (row : Row) (gid : Option Nat) (cache2 : List (Triple × Nat))
    (calls2 : List GeoLocation) (e : RowError)
    (h : resolveGeo g st.cache st.geo_calls row = .ok (gid, cache2, calls2))
    (h2 : assembleCore row = .error e) :
    processRow g s st row =
      { st with
          cache := cache2,
          geo_calls := calls2,
          skipped_malformed := st.skipped_malformed + 1 } := by
  unfold processRow
  rw [h, h2]

lemma processRow_assemble_ok (g : GeoLocation → Nat) (s : Sample → Nat × Bool)
    (st : RunState) (row : Row) (gid : Option Nat) (cache2 : List (Triple × Nat))
    (calls2 : List GeoLocation) (mk : Option Nat → Sample)
    (h : resolveGeo g st.cache st.geo_calls row = .ok (gid, cache2, calls2))
    (h2 : assembleCore row = .ok mk) :
    processRow g s st row =
      { st with
          cache := cache2,
          geo_calls := calls2,
          sample_calls := st.sample_calls ++ [mk gid],
          count_preexisting :=
            st.count_preexisting + (if (s (mk gid)).2 then 1 else 0) } := by
  unfold processRow
  rw [h, h2]

lemma resolveGeo_of_parse_err (g : GeoLocation → Nat) (cache : List (Triple × Nat))
    (calls : List GeoLocation) (row : Row) (e : RowError)
    (h : rowGeoParse row = .error e) :
    resolveGeo g cache calls row = .error e := by
  unfold resolveGeo
  rw [h]

lemma resolveGeo_of_parse_none (g : GeoLocation → Nat) (cache : List (Triple × Nat))
    (calls : List GeoLocation) (row : Row)
    (h : rowGeoParse row = .ok none) :
    resolveGeo g cache calls row = .ok (none, cache, calls) := by
  unfold resolveGeo
  rw [h]

lemma rowTriple_parse (row : Row) (t : Triple) (h : rowTriple row = some t) :
    ∃ ft, rowGeoParse row = .ok (some (ft, t)) := by
  unfold rowTriple at h
  rcases hp : rowGeoParse row with e | v
  · rw [hp] at h
    simp at h
  · rcases v with _ | ⟨ft, t0⟩
    · rw [hp] at h
      simp at h
    · rw [hp] at h
      simp at h
      exact ⟨ft, by rw [h]⟩

lemma resolveGeo_hit (g : GeoLocation → Nat) (cache : List (Triple × Nat))
    (calls : List GeoLocation) (row : Row) (t : Triple) (id : Nat)
    (htr : rowTriple row = some t) (hl : lookupTriple cache t = some id) :
    resolveGeo g cache calls row = .ok (some id, cache, calls) := by
  obtain ⟨ft, hp⟩ := rowTriple_parse row t htr
  simp [resolveGeo, hp, hl]

lemma resolveGeo_some_lookup (g : GeoLocation → Nat) (cache : List (Triple × Nat))
    (calls : List GeoLocation) (row : Row) (t : Triple) (id : Nat)
    (cache2 : List (Triple × Nat)) (calls2 : List GeoLocation)
    (h : resolveGeo g cache calls row = .ok (some id, cache2, calls2))
    (htr : rowTriple row = some t) :
    lookupTriple cache2 t = some id := by
  obtain ⟨ft, hp⟩ := rowTriple_parse row t htr
  rcases hl : lookupTriple cache t with _ | id0
  · simp [resolveGeo, hp, hl] at h
    obtain ⟨h1, h2, _⟩ := h
    rw [← h2]
    simp [lookupTriple, h1]
  · simp [resolveGeo, hp, hl] at h
    obtain ⟨h1, h2, _⟩ := h
    rw [← h2, ← h1]
    exact hl

/-- The run invariant tying the geo call log to the cache: a triple has been
sent to `find_or_insert_geo_location` exactly once if it is cached, never
otherwise. -/
def CacheInv (st : RunState) : Prop :=
  ∀ t, countTriple st.geo_calls t = if (lookupTriple st.cache t).isSome then 1 else 0

lemma cacheInv_init : CacheInv initState := by
  intro t
  simp [initState, countTriple, lookupTriple]

lemma countTriple_append (calls calls' : List GeoLocation) (t : Triple) :
    countTriple (calls ++ calls') t = countTriple calls t + countTriple calls' t := by
  simp [countTriple, List.countP_append]

lemma countTriple_single (loc : GeoLocation) (t : Triple) :
    countTriple [loc] t = if tripleOf loc = t then 1 else 0 := by
  by_cases h : tripleOf loc = t <;> simp [countTriple, List.countP_cons, h]

lemma resolveGeo_inv (g : GeoLocation → Nat) (cache : List (Triple × Nat))
    (calls : List GeoLocation) (row : Row) (gid : Option Nat)
    (cache2 : List (Triple × Nat)) (calls2 : List GeoLocation)
    (h : resolveGeo g cache calls row = .ok (gid, cache2, calls2))
    (hInv : ∀ t, countTriple calls t = if (lookupTriple cache t).isSome then 1 else 0) :
    ∀ t, countTriple calls2 t = if (lookupTriple cache2 t).isSome then 1 else 0 := by
  rcases hp : rowGeoParse row with e | v
  · rw [resolveGeo_of_parse_err g cache calls row e hp] at h
    simp at h
  · rcases v with _ | ⟨ft, t0⟩
    · rw [resolveGeo_of_parse_none g cache calls row hp] at h
      simp at h
      obtain ⟨_, h2, h3⟩ := h
      rw [← h2, ← h3]
      exact hInv
    · rcases hl : lookupTriple cache t0 with _ | id0
      · simp [resolveGeo, hp, hl] at h
        obtain ⟨_, h2, h3⟩ := h
        intro t
        rw [← h2, ← h3, countTriple_append, countTriple_single]
        have htrip : tripleOf
            { full_text := ft, country_name := t0.1, region_name := t0.2.1,
              locality_name := t0.2.2 } = t0 := rfl
        rw [htrip]
        by_cases ht : t0 = t
        · subst ht
          have h0 := hInv t0
          rw [hl] at h0
          simp at h0
          simp [lookupTriple, h0]
        · simp [lookupTriple, ht, hInv t]
      · simp [resolveGeo, hp, hl] at h
        obtain ⟨_, h2, h3⟩ := h
        rw [← h2, ← h3]
        exact hInv

lemma processRow_inv (g : GeoLocation → Nat) (s : Sample → Nat × Bool)
    (st : RunState) (row : Row) (hInv : CacheInv st) :
    CacheInv (processRow g s st row) := by
  rcases hr : resolveGeo g st.cache st.geo_calls row with e | ⟨gid, cache2, calls2⟩
  · rw [processRow_resolve_err g s st row e hr]
    exact hInv
  · have hnext := resolveGeo_inv g st.cache st.geo_calls row gid cache2 calls2 hr hInv
    rcases ha : assembleCore row with e | mk
    · rw [processRow_assemble_err g s st row gid cache2 calls2 e hr ha]
      exact hnext
    · rw [processRow_assemble_ok g s st row gid cache2 calls2 mk hr ha]
      exact hnext

lemma foldl_inv (g : GeoLocation → Nat) (s : Sample → Nat × Bool)
    (rows : List Row) (st : RunState) (hInv : CacheInv st) :
    CacheInv (rows.foldl (processRow g s) st) := by
  induction rows generalizing st with
  | nil => exact hInv
  | cons row rest ih =>
    simpa using ih (processRow g s st row) (processRow_inv g s st row hInv)

lemma resolveGeo_cache_mono (g : GeoLocation → Nat) (cache : List (Triple × Nat))
    (calls : List GeoLocation) (row : Row) (gid : Option Nat)
    (cache2 : List (Triple × Nat)) (calls2 : List GeoLocation) (t : Triple) (id : Nat)
    (h : resolveGeo g cache calls row = .ok (gid, cache2, calls2))
    (hl : lookupTriple cache t = some id) :
    lookupTriple cache2 t = some id := by
  rcases hp : rowGeoParse row with e | v
  · rw [resolveGeo_of_parse_err g cache calls row e hp] at h
    simp at h
  · rcases v with _ | ⟨ft, t0⟩
    · rw [resolveGeo_of_parse_none g cache calls row hp] at h
      simp at h
      obtain ⟨_, h2, _⟩ := h
      rw [← h2]
      exact hl
    · rcases hl0 : lookupTriple cache t0 with _ | id0
      · simp [resolveGeo, hp, hl0] at h
        obtain ⟨_, h2, _⟩ := h
        rw [← h2]
        have ht : t0 ≠ t := by
          intro he
          rw [he, hl] at hl0
          simp at hl0
        simp [lookupTriple, ht]
        exact hl
      · simp [resolveGeo, hp, hl0] at h
        obtain ⟨_, h2, _⟩ := h
        rw [← h2]
        exact hl

lemma processRow_cache_mono (g : GeoLocation → Nat) (s : Sample → Nat × Bool)
    (st : RunState) (row : Row) (t : Triple) (id : Nat)
    (hl : lookupTriple st.cache t = some id) :
    lookupTriple (processRow g s st row).cache t = some id := by
  rcases hr : resolveGeo g st.cache st.geo_calls row with e | ⟨gid, cache2, calls2⟩
  · rw [processRow_resolve_err g s st row e hr]
    exact hl
  · have hm := resolveGeo_cache_mono g st.cache st.geo_calls row gid cache2 calls2 t id hr hl
    rcases ha : assembleCore row with e | mk
    · rw [processRow_assemble_err g s st row gid cache2 calls2 e hr ha]
      exact hm
    · rw [processRow_assemble_ok g s st row gid cache2 calls2 mk hr ha]
      exact hm

lemma foldl_cache_mono (g : GeoLocation → Nat) (s : Sample → Nat × Bool)
    (rows : List Row) (st : RunState) (t : Triple) (id : Nat)
    (hl : lookupTriple st.cache t = some id) :
    lookupTriple (rows.foldl (processRow g s) st).cache t = some id := by
  induction rows generalizing st with
  | nil => exact hl
  | cons row rest ih =>
    simpa using ih (processRow g s st row)
      (processRow_cache_mono g s st row t id hl)

/-- C2: for every input file whose header row is not a superset of the
required-column set, `parse_and_insert` fails with a schema error reporting
exactly the set of missing columns, and the failure is independent of the data
rows (none is processed: the result is the same as for an empty body, so no
row assembly, storage call or counter update happens). -/
theorem c2_header_error_before_rows (g : GeoLocation → Nat)
    (s : Sample → Nat × Bool) (fieldnames : List String) (rows : List Row)
    (h : ∃ c ∈ get_required_column_set, c ∉ fieldnames) :
    parseAndInsertRows g s fieldnames rows = .error (missingColumns fieldnames) ∧
    (∀ c, c ∈ missingColumns fieldnames ↔
      c ∈ get_required_column_set ∧ c ∉ fieldnames) ∧
    parseAndInsertRows g s fieldnames rows = parseAndInsertRows g s fieldnames [] := by
  obtain ⟨c, hc, hnc⟩ := h
  have hne : missingColumns fieldnames ≠ [] := by
    intro h0
    have hm : c ∈ missingColumns fieldnames := by
      simp [missingColumns, List.mem_filter]
      exact ⟨hc, hnc⟩
    rw [h0] at hm
    simp at hm
  refine ⟨?_, ?_, ?_⟩
  · simp [parseAndInsertRows, verify_header, hne]
  · intro c0
    simp [missingColumns, List.mem_filter]
  · simp [parseAndInsertRows, verify_header, hne]

/-- C2 witness: a header containing only `Run` is missing required columns and
the run fails with exactly the required-minus-header set before touching the
rows. -/
theorem c2_header_error_before_rows_witness :
    (∃ c ∈ get_required_column_set, c ∉ ["Run"]) ∧
    (parseAndInsertRows gW sW ["Run"] [rowGeoW] = .error (missingColumns ["Run"]) ∧
      (∀ c, c ∈ missingColumns ["Run"] ↔
        c ∈ get_required_column_set ∧ c ∉ ["Run"]) ∧
      parseAndInsertRows gW sW ["Run"] [rowGeoW] = parseAndInsertRows gW sW ["Run"] []) :=
  ⟨by decide, c2_header_error_before_rows gW sW ["Run"] [rowGeoW] (by decide)⟩

/-- C5: a row whose collection-date cell is exactly the sentinel string
`missing` passes the collection-date step without error, with both the start
and end dates null. -/
theorem c5_missing_sentinel (row : Row)
    (h : rowLookup row ColNameMapping.collection_date = some "missing") :
    collectionDates row = .ok (none, none) := by
  simp [collectionDates, get_value, h]

/-- C5 witness. -/
theorem c5_missing_sentinel_witness :
    rowLookup [(ColNameMapping.collection_date, "missing")]
        ColNameMapping.collection_date = some "missing" ∧
    collectionDates [(ColNameMapping.collection_date, "missing")] = .ok (none, none) :=
  ⟨by decide, c5_missing_sentinel [(ColNameMapping.collection_date, "missing")] (by decide)⟩

/-- C7: the required-column set contains exactly the literal headers the row
assembly reads (mutual inclusion), is duplicate-free (one literal per logical
field), and does not require the unconsumed `geo_loc_name_country` and
`geo_loc_name_country_continent` mappings. -/
theorem c7_required_columns_exact :
    get_required_column_set ⊆ assemblyReadColumns ∧
    assemblyReadColumns ⊆ get_required_column_set ∧
    get_required_column_set.Nodup ∧
    ColNameMapping.geo_loc_name_country ∉ get_required_column_set ∧
    ColNameMapping.geo_loc_name_country_continent ∉ get_required_column_set := by
  refine ⟨by decide, by decide, by decide, by decide, by decide⟩

/-- C8: a row whose geo-location cell extracts to null gets a null
geo-location id, with no decomposition, no cache change and no
`find_or_insert_geo_location` call. -/
theorem c8_absent_geo_no_storage (g : GeoLocation → Nat) (s : Sample → Nat × Bool)
    (st : RunState) (row : Row)
    (h : get_value row ColNameMapping.geo_loc_name true (fun x => some x) = .ok none) :
    resolveGeo g st.cache st.geo_calls row = .ok (none, st.cache, st.geo_calls) ∧
    (processRow g s st row).geo_calls = st.geo_calls ∧
    (processRow g s st row).cache = st.cache := by
  have hp : rowGeoParse row = .ok none := by
    simp [rowGeoParse, h]
  have hres := resolveGeo_of_parse_none g st.cache st.geo_calls row hp
  refine ⟨hres, ?_, ?_⟩ <;>
    rcases ha : assembleCore row with e | mk
  · rw [processRow_assemble_err g s st row none st.cache st.geo_calls e hres ha]
  · rw [processRow_assemble_ok g s st row none st.cache st.geo_calls mk hres ha]
  · rw [processRow_assemble_err g s st row none st.cache st.geo_calls e hres ha]
  · rw [processRow_assemble_ok g s st row none st.cache st.geo_calls mk hres ha]

/-- C8 witness: a row with an empty geo cell. -/
theorem c8_absent_geo_no_storage_witness :
    get_value [(ColNameMapping.geo_loc_name, "")] ColNameMapping.geo_loc_name true
        (fun x => some x) = .ok none ∧
    (resolveGeo gW initState.cache initState.geo_calls
        [(ColNameMapping.geo_loc_name, "")] =
      .ok (none, initState.cache, initState.geo_calls) ∧
      (processRow gW sW initState [(ColNameMapping.geo_loc_name, "")]).geo_calls =
        initState.geo_calls ∧
      (processRow gW sW initState [(ColNameMapping.geo_loc_name, "")]).cache =
        initState.cache) :=
  ⟨by decide,
    c8_absent_geo_no_storage gW sW initState [(ColNameMapping.geo_loc_name, "")] (by decide)⟩

/-- C9: the TSV and CSV subclasses are behaviorally identical to the base
parser constructed with tab and comma delimiters respectively, on every input
and against every pair of storage oracles. -/
theorem c9_subclasses_no_distinct_behavior (filename : String)
    (g : GeoLocation → Nat) (s : Sample → Nat × Bool) (headerLine : String)
    (bodyLines : List String) :
    SamplesTsvParser.parse_and_insert filename g s headerLine bodyLines =
      SamplesParser.parse_and_insert { filename := filename, delimiter := "\t" }
        g s headerLine bodyLines ∧
    SamplesCsvParser.parse_and_insert filename g s headerLine bodyLines =
      SamplesParser.parse_and_insert { filename := filename, delimiter := "," }
        g s headerLine bodyLines :=
  ⟨rfl, rfl⟩

/-- A concrete fully-valid row: every required column present with a
convertible value (collection date is the sentinel, the geo cell decomposes to
the Davis triple). -/
def rowFullW : Row := [
  (ColNameMapping.geo_loc_name, "USA:California:Davis"),
  (ColNameMapping.collection_date, "missing"),
  (ColNameMapping.retraction_detected_date, "2021-01-03T00:00:00"),
  (ColNameMapping.accession, "SRR123"),
  (ColNameMapping.assay_type, "WGS"),
  (ColNameMapping.avg_spot_length, "150.5"),
  (ColNameMapping.bases, "500"),
  (ColNameMapping.bio_project, "PRJNA1"),
  (ColNameMapping.bio_sample, "SAMN1"),
  (ColNameMapping.bio_sample_model, "Model1"),
  (ColNameMapping.bio_sample_accession, ""),
  (ColNameMapping.bytes_, "1000"),
  (ColNameMapping.center_name, "CENTER"),
  (ColNameMapping.consent_level, "public"),
  (ColNameMapping.datastore_filetype, "fastq"),
  (ColNameMapping.datastore_provider, "s3"),
  (ColNameMapping.datastore_region, "us-east-1"),
  (ColNameMapping.experiment, "EXP1"),
  (ColNameMapping.host, "Homo sapiens"),
  (ColNameMapping.instrument, "NovaSeq"),
  (ColNameMapping.isolate, ""),
  (ColNameMapping.library_name, "lib1"),
  (ColNameMapping.library_layout, "PAIRED"),
  (ColNameMapping.library_selection, "RANDOM"),
  (ColNameMapping.library_source, "GENOMIC"),
  (ColNameMapping.organism, "Virus1"),
  (ColNameMapping.platform, "ILLUMINA"),
  (ColNameMapping.version, "1"),
  (ColNameMapping.sample_name, "sample1"),
  (ColNameMapping.sra_study, "SRP1"),
  (ColNameMapping.serotype, ""),
  (ColNameMapping.isolation_source, ""),
  (ColNameMapping.is_retracted, "false"),
  (ColNameMapping.release_date, "2021-01-01T00:00:00Z"),
  (ColNameMapping.creation_date, "2021-01-02T00:00:00Z")]

/-- The fully-valid row with a timezone-free release date and a timezone-free
retraction-detection date (both cells hold the same naive timestamp text). -/
def rowC6W : Row :=
  (ColNameMapping.release_date, "2021-01-01T00:00:00") ::
  (ColNameMapping.retraction_detected_date, "2021-01-01T00:00:00") ::
  rowFullW

/-- A row whose assembly fails on a non-numeric `AvgSpotLen` cell after the
earlier steps succeed (geo absent, sentinel collection date). -/
def rowBadSpotW : Row := [
  (ColNameMapping.geo_loc_name, ""),
  (ColNameMapping.collection_date, "missing"),
  (ColNameMapping.retraction_detected_date, ""),
  (ColNameMapping.accession, "SRR1"),
  (ColNameMapping.assay_type, "WGS"),
  (ColNameMapping.avg_spot_length, "abc")]

/-- A row whose geo step succeeds (Davis triple) but whose assembly fails on
an empty required collection-date cell. -/
def rowBadGeoW : Row := [
  (ColNameMapping.geo_loc_name, "USA:California:Davis"),
  (ColNameMapping.collection_date, "")]

/-- The stored geo-location value the Davis cell produces. -/
def locW : GeoLocation :=
  { full_text := "USA:California:Davis", country_name := some "USA",
    region_name := some "California", locality_name := some "Davis" }

lemma rowGeoId_eq (g : GeoLocation → Nat) (st : RunState) (row : Row)
    (gid : Option Nat) (h : rowGeoId g st row = some gid) :
    ∃ cache2 calls2, resolveGeo g st.cache st.geo_calls row = .ok (gid, cache2, calls2) := by
  rcases hr : resolveGeo g st.cache st.geo_calls row with e | ⟨gid0, c2, l2⟩
  · simp [rowGeoId, hr] at h
  · simp [rowGeoId, hr] at h
    exact ⟨c2, l2, by rw [← h]⟩

/-- C1: within a single run, the resolver assigns the same identifier to any
two rows whose geo strings decompose to the same triple, and
`find_or_insert_geo_location` is called at most once per triple across the
whole run. -/
theorem c1_resolver_dedup (g : GeoLocation → Nat) (s : Sample → Nat × Bool) :
    (∀ rows t, countTriple (stateAfter g s rows).geo_calls t ≤ 1) ∧
    (∀ xs ys r1 r2 t id1 id2,
      rowTriple r1 = some t → rowTriple r2 = some t →
      rowGeoId g (stateAfter g s xs) r1 = some (some id1) →
      rowGeoId g (stateAfter g s (xs ++ r1 :: ys)) r2 = some (some id2) →
      id1 = id2) := by
  constructor
  · intro rows t
    have hInv := foldl_inv g s rows initState cacheInv_init t
    rw [stateAfter, hInv]
    split <;> omega
  · intro xs ys r1 r2 t id1 id2 ht1 ht2 h1 h2
    obtain ⟨c2, l2, hr1⟩ := rowGeoId_eq g (stateAfter g s xs) r1 (some id1) h1
    have hlook : lookupTriple c2 t = some id1 :=
      resolveGeo_some_lookup g (stateAfter g s xs).cache (stateAfter g s xs).geo_calls
        r1 t id1 c2 l2 hr1 ht1
    have hcache : lookupTriple (processRow g s (stateAfter g s xs) r1).cache t = some id1 := by
      rcases ha : assembleCore r1 with e | mk
      · rw [processRow_assemble_err g s _ r1 (some id1) c2 l2 e hr1 ha]
        exact hlook
      · rw [processRow_assemble_ok g s _ r1 (some id1) c2 l2 mk hr1 ha]
        exact hlook
    have hsplit : stateAfter g s (xs ++ r1 :: ys) =
        ys.foldl (processRow g s) (processRow g s (stateAfter g s xs) r1) := by
      simp [stateAfter, List.foldl_append]
    have hl2 : lookupTriple (stateAfter g s (xs ++ r1 :: ys)).cache t = some id1 := by
      rw [hsplit]
      exact foldl_cache_mono g s ys (processRow g s (stateAfter g s xs) r1) t id1 hcache
    have hhit := resolveGeo_hit g (stateAfter g s (xs ++ r1 :: ys)).cache
      (stateAfter g s (xs ++ r1 :: ys)).geo_calls r2 t id1 ht2 hl2
    simp [rowGeoId, hhit] at h2
    exact h2

/-- C1 witness: the Davis row, processed twice from the start of a run,
resolves to the oracle identifier both times. -/
theorem c1_resolver_dedup_witness :
    rowTriple rowGeoW = some tripleW ∧
    rowGeoId gW (stateAfter gW sW []) rowGeoW = some (some 42) ∧
    rowGeoId gW (stateAfter gW sW ([] ++ rowGeoW :: [])) rowGeoW = some (some 42) ∧
    (42 : Nat) = 42 :=
  ⟨by decide, by decide, by decide,
    (c1_resolver_dedup gW sW).2 [] [] rowGeoW rowGeoW tripleW 42 42
      (by decide) (by decide) (by decide) (by decide)⟩

/-- C3: a row whose geo step or assembly raises a validation error increments
`skipped_malformed` by exactly one, makes no `find_or_insert_sample` call, and
the run continues with the remaining rows from the post-skip state. -/
theorem c3_malformed_row_skipped (g : GeoLocation → Nat) (s : Sample → Nat × Bool)
    (st : RunState) (row : Row)
    (h : (∃ e, rowGeoParse row = .error e) ∨ (∃ e, assembleCore row = .error e)) :
    (processRow g s st row).skipped_malformed = st.skipped_malformed + 1 ∧
    (processRow g s st row).sample_calls = st.sample_calls ∧
    ∀ rest : List Row,
      (row :: rest).foldl (processRow g s) st =
        rest.foldl (processRow g s) (processRow g s st row) := by
  refine ⟨?_, ?_, fun rest => by rw [List.foldl_cons]⟩ <;>
    rcases hr : resolveGeo g st.cache st.geo_calls row with e | ⟨gid, cache2, calls2⟩
  · rw [processRow_resolve_err g s st row e hr]
  · rcases h with ⟨e0, hp⟩ | ⟨e0, ha⟩
    · rw [resolveGeo_of_parse_err g st.cache st.geo_calls row e0 hp] at hr
      simp at hr
    · rw [processRow_assemble_err g s st row gid cache2 calls2 e0 hr ha]
  · rw [processRow_resolve_err g s st row e hr]
  · rcases h with ⟨e0, hp⟩ | ⟨e0, ha⟩
    · rw [resolveGeo_of_parse_err g st.cache st.geo_calls row e0 hp] at hr
      simp at hr
    · rw [processRow_assemble_err g s st row gid cache2 calls2 e0 hr ha]

/-- C3 witness: the non-numeric `AvgSpotLen` row is skipped, counted once, and
triggers no sample storage call. -/
theorem c3_malformed_row_skipped_witness :
    assembleCore rowBadSpotW = .error .validationError ∧
    ((processRow gW sW initState rowBadSpotW).skipped_malformed =
        initState.skipped_malformed + 1 ∧
      (processRow gW sW initState rowBadSpotW).sample_calls = initState.sample_calls ∧
      ∀ rest : List Row,
        (rowBadSpotW :: rest).foldl (processRow gW sW) initState =
          rest.foldl (processRow gW sW) (processRow gW sW initState rowBadSpotW)) :=
  ⟨by rfl,
    c3_malformed_row_skipped gW sW initState rowBadSpotW
      (Or.inr ⟨.validationError, by rfl⟩)⟩

/-- C4: the sample storage collaborator is called for a row only when the geo
step and the whole assembly succeeded, and then with the fully assembled
record; any failure leaves the sample call log untouched. -/
theorem c4_no_partial_persist (g : GeoLocation → Nat) (s : Sample → Nat × Bool)
    (st : RunState) (row : Row)
    (h : (processRow g s st row).sample_calls ≠ st.sample_calls) :
    ∃ mk gid cache2 calls2,
      resolveGeo g st.cache st.geo_calls row = .ok (gid, cache2, calls2) ∧
      assembleCore row = .ok mk ∧
      (processRow g s st row).sample_calls = st.sample_calls ++ [mk gid] := by
  rcases hr : resolveGeo g st.cache st.geo_calls row with e | ⟨gid, cache2, calls2⟩
  · rw [processRow_resolve_err g s st row e hr] at h
    simp at h
  · rcases ha : assembleCore row with e | mk
    · rw [processRow_assemble_err g s st row gid cache2 calls2 e hr ha] at h
      simp at h
    · exact ⟨mk, gid, cache2, calls2, rfl, rfl,
        by rw [processRow_assemble_ok g s st row gid cache2 calls2 mk hr ha]⟩

/-- C4 witness: the fully-valid row produces exactly one sample storage
call. -/
theorem c4_no_partial_persist_witness :
    (processRow gW sW initState rowFullW).sample_calls ≠ initState.sample_calls ∧
    (∃ mk gid cache2 calls2,
      resolveGeo gW initState.cache initState.geo_calls rowFullW =
        .ok (gid, cache2, calls2) ∧
      assembleCore rowFullW = .ok mk ∧
      (processRow gW sW initState rowFullW).sample_calls =
        initState.sample_calls ++ [mk gid]) :=
  ⟨by decide, c4_no_partial_persist gW sW initState rowFullW (by decide)⟩

/-- C10: when a row's assembly fails after its geo-location was resolved, the
geo side effects survive the rejection: the row is counted as malformed, the
cache entry and geo call log made by its geo step remain, and any later row
with the same triple (after arbitrary intervening rows) resolves to the same
identifier with no new `find_or_insert_geo_location` call. -/
theorem c10_geo_survives_rejection (g : GeoLocation → Nat) (s : Sample → Nat × Bool)
    (st : RunState) (row : Row) (t : Triple) (id : Nat)
    (cache2 : List (Triple × Nat)) (calls2 : List GeoLocation) (e : RowError)
    (hres : resolveGeo g st.cache st.geo_calls row = .ok (some id, cache2, calls2))
    (hfail : assembleCore row = .error e)
    (htr : rowTriple row = some t) :
    processRow g s st row =
      { st with
          cache := cache2,
          geo_calls := calls2,
          skipped_malformed := st.skipped_malformed + 1 } ∧
    lookupTriple (processRow g s st row).cache t = some id ∧
    ∀ (rest : List Row) (r2 : Row), rowTriple r2 = some t →
      resolveGeo g (rest.foldl (processRow g s) (processRow g s st row)).cache
          (rest.foldl (processRow g s) (processRow g s st row)).geo_calls r2 =
        .ok (some id,
          (rest.foldl (processRow g s) (processRow g s st row)).cache,
          (rest.foldl (processRow g s) (processRow g s st row)).geo_calls) := by
  have heq := processRow_assemble_err g s st row (some id) cache2 calls2 e hres hfail
  have hlook : lookupTriple cache2 t = some id :=
    resolveGeo_some_lookup g st.cache st.geo_calls row t id cache2 calls2 hres htr
  refine ⟨heq, by rw [heq]; exact hlook, ?_⟩
  intro rest r2 htr2
  have hmono : lookupTriple
      (rest.foldl (processRow g s) (processRow g s st row)).cache t = some id :=
    foldl_cache_mono g s rest (processRow g s st row) t id (by rw [heq]; exact hlook)
  exact resolveGeo_hit g _ _ r2 t id htr2 hmono

/-- C10 witness: the row with a valid Davis geo cell and an empty required
collection date is rejected, yet its cache entry remains and a later Davis row
resolves from the cache with no new storage call. -/
theorem c10_geo_survives_rejection_witness :
    assembleCore rowBadGeoW = .error .validationError ∧
    lookupTriple (processRow gW sW initState rowBadGeoW).cache tripleW = some 42 ∧
    resolveGeo gW (processRow gW sW initState rowBadGeoW).cache
        (processRow gW sW initState rowBadGeoW).geo_calls rowGeoW =
      .ok (some 42, (processRow gW sW initState rowBadGeoW).cache,
        (processRow gW sW initState rowBadGeoW).geo_calls) :=
  ⟨by rfl,
    (c10_geo_survives_rejection gW sW initState rowBadGeoW tripleW 42
      [(tripleW, 42)] [locW] .validationError (by rfl) (by rfl) (by decide)).2.1,
    (c10_geo_survives_rejection gW sW initState rowBadGeoW tripleW 42
      [(tripleW, 42)] [locW] .validationError (by rfl) (by rfl) (by decide)).2.2
      [] rowGeoW (by decide)⟩

/-- The release-date field of the record a row assembles to (geo id left
null), when assembly succeeds. -/
def c6ReleaseOf (row : Row) : Option (Option Timestamp) :=
  match assembleCore row with
  | .ok mk => some ((mk none).release_date)
  | .error _ => none

/-- The retraction-detection-date field of the record a row assembles to (geo
id left null), when assembly succeeds. -/
def c6RetractionOf (row : Row) : Option (Option Timestamp) :=
  match assembleCore row with
  | .ok mk => some ((mk none).retraction_detected_date)
  | .error _ => none

/-- C6 counterexample: on a concrete row whose release-date and
retraction-detection-date cells hold the same timezone-free timestamp text,
assembly parses the release date with no zone marker appended — the result is
a naive timestamp, not the UTC timestamp that appending a marker produces for
the retraction field — so the appending policy does not apply to the release
(or creation) date fields as the claim states. -/
theorem c6_counterexample :
    c6ReleaseOf rowC6W = some (some { base := "2021-01-01T00:00:00", tz := none }) ∧
    c6RetractionOf rowC6W =
      some (some { base := "2021-01-01T00:00:00", tz := some "UTC" }) ∧
    isoparse ("2021-01-01T00:00:00" ++ "Z") =
      some { base := "2021-01-01T00:00:00", tz := some "UTC" } ∧
    c6ReleaseOf rowC6W ≠
      some (some { base := "2021-01-01T00:00:00", tz := some "UTC" }) :=
  ⟨by decide, by decide, by decide, by decide⟩

/-- C6 (amended): the append-a-zone-marker-then-parse policy applies to the
retraction-detection date — a timezone-free input there is always accepted and
read as UTC — while the release and creation dates are parsed by `isoparse`
directly, so a timezone-free input there is accepted but yields a naive
timestamp with no UTC assumption. -/
theorem c6_tz_policy_amended (s : String) (h : validNaive s = true) :
    parseRetractionDate s = some { base := s, tz := some "UTC" } ∧
    isoparse s = some { base := s, tz := none } := by
  have hv : validNaiveChars s.data = true := h
  have hv2 : (!s.data.isEmpty && s.data.all naiveChar) = true := hv
  have hall : s.data.all naiveChar = true :=
    ((Bool.and_eq_true (!s.data.isEmpty) (s.data.all naiveChar)) ▸ hv2).2
  constructor
  · unfold parseRetractionDate isoparse
    have hd : (s ++ "Z").data.reverse = 'Z' :: s.data.reverse := by
      rw [String.data_append]
      simp
    rw [hd]
    simp [List.reverse_reverse, hv]
  · rcases hrev : s.data.reverse with _ | ⟨c, rest⟩
    · unfold isoparse
      rw [hrev]
      simp [hv]
    · have hc : c ∈ s.data := by
        have hm : c ∈ s.data.reverse := by
          rw [hrev]
          exact List.mem_cons_self c rest
        simpa using hm
      have hnc : naiveChar c = true := List.all_eq_true.mp hall c hc
      have hcz : c ≠ 'Z' := by
        intro he
        rw [he] at hnc
        exact absurd hnc (by decide)
      unfold isoparse
      rw [hrev]
      simp [hcz, hv]

/-- C6 amended witness: a concrete timezone-free date. -/
theorem c6_tz_policy_amended_witness :
    validNaive "2021-01-05" = true ∧
    (parseRetractionDate "2021-01-05" =
        some { base := "2021-01-05", tz := some "UTC" } ∧
      isoparse "2021-01-05" = some { base := "2021-01-05", tz := none }) :=
  ⟨by decide, c6_tz_policy_amended "2021-01-05" (by decide)⟩
